import Mathlib

/-!
Verification of brainwagon/font-indexer against its specification.

Shallow embedding of `src/font-indexer.py` and `src/font-renderer.py`.
The two scripts delegate font parsing to fontTools (`TTFont`) and
rasterization to Pillow (`ImageFont` / `ImageDraw`).  We model the
observable answers of those libraries as data carried by a `FontFile`:

* `FontFile.ttf` is the result of `TTFont(font_path)`: `none` models the
  constructor raising, `some t` a successfully opened font whose
  `getBestCmap()` result, `hmtx` table, `head.unitsPerEm` and naming
  table are the fields of `t`.  A `cmap` of `none` models
  `getBestCmap()` returning a falsy non-dict value; `some []` models an
  empty (falsy) dict.  `hmtx` is modelled as a total function from glyph
  name to `(advanceWidth, lsb)`, since every glyph name produced by the
  cmap is resolvable in a font whose tables loaded.
* `FontFile.pil size` is the result of `ImageFont.truetype(font_path, size)`:
  `none` models the call raising.  A loaded Pillow font answers
  `getmetrics()` with `(ascent, descent)` and `draw.textbbox((0,0), text)`
  with a bounding box, both deterministic for a fixed font and size.
  Only the modern `textbbox` path of the scripts is modelled; the
  `TypeError` fallback for ancient Pillow versions is dead on any
  Pillow that provides `textbbox`.
* `ttfErr` / `pilErr` model `str(e)` of the exception raised by the
  respective library when opening fails.

Python's float comparison `space_width > (sum(widths)/len(widths)) * 3`
in `check_font_metrics` is modelled by the exact cross-multiplied
integer comparison `space_width * len(widths) > 3 * sum(widths)`, which
is equivalent in exact arithmetic (the length is positive on that
branch); no claim touches the boundary where IEEE-754 rounding of the
quotient could disagree with the exact value.
-/

/-- Result of Pillow's `draw.textbbox((0, 0), text, font=font)`:
left, top, right, bottom. -/
structure BBox where
  x0 : Int
  y0 : Int
  x1 : Int
  y1 : Int
deriving DecidableEq

/-- A Pillow font object at a fixed size: `getmetrics()` and `textbbox`. -/
structure PILFont where
  ascent : Int
  descent : Int
  bbox : String → BBox

/-- A fontTools `TTFont` that opened successfully. -/
structure TTData where
  cmap : Option (List (Nat × String))
  hmtx : String → Nat × Int
  unitsPerEm : Nat
  names : Nat → Option String

/-- A font file on disk, together with the answers the two libraries
give for it. -/
structure FontFile where
  path : String
  ttf : Option TTData
  pil : Nat → Option PILFont
  ttfErr : String
  pilErr : String

/-- `'ABCDEFGHIJKLMNOPQRSTUVWXYZabcdefghijklmnopqrstuvwxyz0123456789'`
from `has_required_chars` and `check_font_metrics`. -/
def requiredChars : List Char :=
  "ABCDEFGHIJKLMNOPQRSTUVWXYZabcdefghijklmnopqrstuvwxyz0123456789".toList

/-- `f"Character '{char}' has zero width"`. -/
def zeroWidthMsg (c : Char) : String :=
  "Character \x27" ++ String.mk [c] ++ "\x27 has zero width"

/-- `f"Character '{char}' has excessively large width"`. -/
def excessiveMsg (c : Char) : String :=
  "Character \x27" ++ String.mk [c] ++ "\x27 has excessively large width"

/-- `has_required_chars` (font-indexer.py lines 81-96): `False` when
`TTFont` raises, when `getBestCmap()` is falsy, or when some required
character is not a key of the cmap; `True` otherwise. -/
def has_required_chars (f : FontFile) : Bool :=
  match f.ttf with
  | none => false
  | some t =>
    match t.cmap with
    | none => false
    | some cm =>
      if cm.isEmpty then false
      else requiredChars.all fun c => (List.lookup c.toNat cm).isSome

/-- The `for char in required_chars` loop of `check_font_metrics`:
characters absent from the cmap are skipped; a zero advance width or an
advance width exceeding `units_per_em * 10` returns early with its
reason; otherwise the width is accumulated.  `Sum.inl` is an early
`return`, `Sum.inr` the accumulated `alphanumeric_widths`. -/
def metricsLoop (cm : List (Nat × String)) (hm : String → Nat × Int) (upem : Nat) :
    List Char → List Nat → (Bool × String) ⊕ List Nat
  | [], acc => Sum.inr acc
  | c :: rest, acc =>
    match List.lookup c.toNat cm with
    | none => metricsLoop cm hm upem rest acc
    | some g =>
      let w := (hm g).1
      if w = 0 then Sum.inl (false, zeroWidthMsg c)
      else if w > upem * 10 then Sum.inl (false, excessiveMsg c)
      else metricsLoop cm hm upem rest (acc ++ [w])

/-- The widths the loop accumulates when no early return fires: the
advance width of every required character present in the cmap, in order. -/
def presentWidths (cm : List (Nat × String)) (hm : String → Nat × Int)
    (l : List Char) : List Nat :=
  l.filterMap fun c => (List.lookup c.toNat cm).map fun g => (hm g).1

/-- `check_font_metrics` (font-indexer.py lines 98-140). -/
def check_font_metrics (f : FontFile) : Bool × String :=
  match f.ttf with
  | none => (false, "Could not check metrics: " ++ f.ttfErr)
  | some t =>
    match t.cmap with
    | none => (false, "No cmap table found")
    | some cm =>
      if cm.isEmpty then (false, "No cmap table found")
      else
        match metricsLoop cm t.hmtx t.unitsPerEm requiredChars [] with
        | Sum.inl r => r
        | Sum.inr widths =>
          if widths.isEmpty then (false, "No alphanumeric characters found")
          else
            match List.lookup 32 cm with
            | none => (false, "No space character")
            | some sg =>
              let spaceW := (t.hmtx sg).1
              if spaceW * widths.length > 3 * widths.sum then
                (false, "Space character is excessively wide")
              else (true, "")

/-- `slow_check_font` (font-indexer.py lines 142-168).  The "widths" the
code compares are the `[2]` components (right edges) of the text
bounding boxes measured from origin `(0, 0)`. -/
def slow_check_font (f : FontFile) (size : Nat) : Bool × String :=
  match f.pil size with
  | none => (false, "Could not perform slow check: " ++ f.pilErr)
  | some pf =>
    let widthWithSpaces := (pf.bbox "A B C D E").x1
    let widthNoSpaces := (pf.bbox "ABCDE").x1
    let spaceWidth := (pf.bbox " ").x1
    if widthWithSpaces - widthNoSpaces > spaceWidth * 4 then
      (false, "Potential kerning issue")
    else (true, "")

/-- `get_font_info` builds this from the naming table, defaulting each
absent record to `'N/A'`. -/
structure FontInfo where
  family : String
  style : String
  full_name : String
  version : String
  copyright : String
deriving DecidableEq

/-- The record `get_font_info` returns for a font that opened. -/
def infoOf (t : TTData) : FontInfo where
  family := (t.names 1).getD "N/A"
  style := (t.names 2).getD "N/A"
  full_name := (t.names 4).getD "N/A"
  version := (t.names 5).getD "N/A"
  copyright := (t.names 0).getD "N/A"

/-- `get_font_info` (font-indexer.py lines 15-32): `None` when `TTFont`
raises. -/
def get_font_info (f : FontFile) : Option FontInfo :=
  f.ttf.map infoOf

/-- The image each `render_text` writes, reduced to its observable
parameters: canvas dimensions, background RGBA fill, text colour,
output format. -/
structure RenderedImage where
  width : Int
  height : Int
  background : Nat × Nat × Nat × Nat
  fill : String
  format : String
deriving DecidableEq

/-- `render_text` of font-indexer.py (lines 34-67): width from the text
bounding box plus `2 * padding`, height from `ascent + abs(descent)`
plus `2 * padding` with `padding = 10`; `none` models the broad
`except` returning `False` when the Pillow font cannot be loaded. -/
def render_text_indexer (text : String) (f : FontFile) (size : Nat) :
    Option RenderedImage :=
  match f.pil size with
  | none => none
  | some pf =>
    let b := pf.bbox text
    let textWidth := b.x1 - b.x0
    let padding : Int := 10
    some { width := textWidth + 2 * padding
           height := pf.ascent + |pf.descent| + 2 * padding
           background := (255, 255, 255, 0)
           fill := "black"
           format := "PNG" }

/-- `render_text` of font-renderer.py (lines 7-32): both dimensions come
from the text bounding box, each plus `20`. -/
def render_text_renderer (text : String) (f : FontFile) (size : Nat) :
    Option RenderedImage :=
  match f.pil size with
  | none => none
  | some pf =>
    let b := pf.bbox text
    let textWidth := b.x1 - b.x0
    let textHeight := b.y1 - b.y0
    some { width := textWidth + 20
           height := textHeight + 20
           background := (255, 255, 255, 0)
           fill := "black"
           format := "PNG" }

/-- The command-line and environment inputs `main` threads through the
per-font loop.  `relpath` models `os.path.relpath` (which depends on the
process working directory); `readmeHtml` models the
markdown-rendered content of `README.md` when that file exists. -/
structure Config where
  text : String
  outputDir : String
  size : Nat
  slowCheck : Bool
  relpath : String → String
  readmeHtml : Option String

/-- The mutable state of `main`'s loop: the flat `table_rows` list of
HTML fragments and the two counters. -/
structure IndexState where
  tableRows : List String
  total : Nat
  issues : Nat
deriving DecidableEq

/-- `total_processed_fonts = 0`, `fonts_with_issues = 0`, `table_rows = []`. -/
def initState : IndexState := ⟨[], 0, 0⟩

/-- The quality result after the optional slow check (font-indexer.py
lines 214-218): the kerning checker runs only under
`args.slow_check and metrics_ok`, and overwrites `quality_reason` only
when it fails. -/
def fontQuality (cfg : Config) (f : FontFile) : Bool × String :=
  let m := check_font_metrics f
  if cfg.slowCheck && m.1 then
    let s := slow_check_font f cfg.size
    if s.1 then (true, m.2) else (false, s.2)
  else m

/-- `'&#9989;' if metrics_ok else '&#10060;'`. -/
def qualityIcon (ok : Bool) : String :=
  if ok then "&#9989;" else "&#10060;"

/-- `f'title="{quality_reason}"' if not metrics_ok else ''`. -/
def titleAttr (ok : Bool) (reason : String) : String :=
  if ok then "" else "title=\"" ++ reason ++ "\""

/-- `os.path.basename`. -/
def basename (p : String) : String :=
  (p.splitOn "/").getLastD p

/-- `os.path.join(args.output_dir, image_name)` for a relative second
component. -/
def joinPath (d n : String) : String :=
  if d = "" then n
  else if d.endsWith "/" then d ++ n
  else d ++ "/" ++ n

/-- One `<td...>...</td>` cell as the f-strings of `main` produce it. -/
def tdCell (attrs content : String) : String :=
  "<td" ++ attrs ++ ">" ++ content ++ "</td>"

/-- The eight strings `main` appends to `table_rows` for one font
(font-indexer.py lines 231-238). -/
def rowStrings (cfg : Config) (f : FontFile) (info : FontInfo)
    (ok : Bool) (reason : String) : List String :=
  ["<tr>",
   tdCell " class=\"font-name-col\"" info.full_name,
   tdCell " class=\"filename-col\"" (basename f.path),
   tdCell "" info.style,
   tdCell (" " ++ titleAttr ok reason) (qualityIcon ok),
   tdCell " class=\"render-col\""
     ("<img src=\"" ++ joinPath cfg.outputDir (basename f.path ++ ".png")
       ++ "\" alt=\"Render of " ++ info.full_name ++ "\">"),
   tdCell ""
     ("<a href=\"" ++ cfg.relpath f.path
       ++ "\"><i class=\x27bx bx-download\x27></i></a>"),
   "</tr>"]

/-- Whether `render_text(args.text, font_path, image_path, args.font_size)`
returned `True` for this font. -/
def render_text_ok (cfg : Config) (f : FontFile) : Bool :=
  (render_text_indexer cfg.text f cfg.size).isSome

/-- One iteration of `main`'s `for font_path in font_iterator` loop
(font-indexer.py lines 204-239). -/
def processFont (cfg : Config) (st : IndexState) (f : FontFile) : IndexState :=
  if has_required_chars f then
    match get_font_info f with
    | none => st
    | some info =>
      let q := fontQuality cfg f
      if render_text_ok cfg f then
        { tableRows := st.tableRows ++ rowStrings cfg f info q.1 q.2
          total := st.total + 1
          issues := st.issues + if q.1 then 0 else 1 }
      else st
  else st

/-- The whole loop over the iteration list. -/
def processFonts (cfg : Config) (st : IndexState) (fonts : List FontFile) :
    IndexState :=
  fonts.foldl (processFont cfg) st

/-- `fonts = fonts[:args.number]` when `-n` was supplied
(font-indexer.py lines 194-195). -/
def capFonts (n : Option Nat) (fonts : List FontFile) : List FontFile :=
  match n with
  | none => fonts
  | some k => fonts.take k

instance : DecidableRel (fun a b : FontFile => a.path ≤ b.path) :=
  fun a b => inferInstanceAs (Decidable (a.path ≤ b.path))

/-- `sorted(fonts)`: Python sorts the path strings lexicographically by
code point, which is the order of Lean's `String` linear order; `sorted`
is stable, as is insertion sort. -/
def sortFonts (fonts : List FontFile) : List FontFile :=
  List.insertionSort (fun a b => a.path ≤ b.path) fonts

/-- The list `main` actually iterates: the discovery-order list is
capped by `-n` first, then sorted (font-indexer.py lines 191-200). -/
def iterationList (n : Option Nat) (discovered : List FontFile) :
    List FontFile :=
  sortFonts (capFonts n discovered)

/-- `f'<p>Total fonts processed: {total_processed_fonts}</p>'`. -/
def totalLine (st : IndexState) : String :=
  "<p>Total fonts processed: " ++ toString st.total ++ "</p>"

/-- `f'<p>Fonts with quality issues (&#10060;): {fonts_with_issues}</p>'`. -/
def issuesLine (st : IndexState) : String :=
  "<p>Fonts with quality issues (&#10060;): " ++ toString st.issues ++ "</p>"

/-- Everything `main` writes to the HTML file before the two counter
paragraphs (font-indexer.py lines 241-256). -/
def htmlBeforeCounts : String :=
  "<html><head><title>Font Index</title>"
  ++ "<link href=\"https://unpkg.com/boxicons@2.1.4/css/boxicons.min.css\" rel=\"stylesheet\">"
  ++ "<style>"
  ++ "body \x7b font-family: sans-serif; margin: 2em; \x7d"
  ++ "table \x7b border-collapse: collapse; width: 100%; \x7d"
  ++ "th, td \x7b border: 1px solid #ddd; padding: 8px; text-align: left; \x7d"
  ++ "th \x7b background-color: #f2f2f2; cursor: pointer; \x7d"
  ++ "img \x7b max-width: 100%; height: auto; \x7d"
  ++ "#readme \x7b background-color: #f9f9f9; border: 1px solid #eee; padding: 1em; margin-bottom: 2em; \x7d"
  ++ ".font-name-col, .filename-col \x7b max-width: 150px; overflow: hidden; text-overflow: ellipsis; white-space: nowrap; \x7d"
  ++ ".render-col \x7b width: auto; \x7d"
  ++ "</style>"
  ++ "</head><body>"
  ++ "<h1>Font Index</h1>"

/-- The `<div id="readme">` block, written only when `README.md` exists. -/
def readmeBlock (cfg : Config) : String :=
  match cfg.readmeHtml with
  | none => ""
  | some h => "<div id=\"readme\">" ++ h ++ "</div>"

/-- The static explanation paragraph about the Quality column. -/
def qualityNote : String :=
  "<p>The <b>Quality</b> column indicates whether a font has passed a series of quality checks. A green checkmark (&#9989;) indicates that the font has passed all checks. A red \x27x\x27 (&#10060;) indicates that the font may have issues, such as missing characters or inconsistent kerning, which can cause problems when rendering text.</p>"

/-- The embedded client-side sort script (written verbatim by `main`).
Braces and apostrophes appear escaped; the logic is opaque to this
development. -/
def htmlScript : String :=
  "\n<script>\nconst sortDirections = \x7b\x7d;\n\nfunction sortTable(n) \x7b\n    const table = document.getElementById(\"fontTable\");\n    const tbody = table.tBodies[0];\n    const rows = Array.from(tbody.rows);\n    \n    const dir = sortDirections[n] === \x27asc\x27 ? \x27desc\x27 : \x27asc\x27;\n    sortDirections[n] = dir;\n\n    rows.sort((a, b) => \x7b\n        const x = a.cells[n].innerText.toLowerCase();\n        const y = b.cells[n].innerText.toLowerCase();\n        \n        if (x < y) \x7b\n            return dir === \x27asc\x27 ? -1 : 1;\n        \x7d\n        if (x > y) \x7b\n            return dir === \x27asc\x27 ? 1 : -1;\n        \x7d\n        return 0;\n    \x7d);\n\n    rows.forEach(row => tbody.appendChild(row));\n\x7d\n</script>\n        "

/-- Everything `main` writes after the two counter paragraphs
(font-indexer.py lines 260-305), as a function of the final state. -/
def htmlAfterCounts (cfg : Config) (st : IndexState) : String :=
  readmeBlock cfg
  ++ qualityNote
  ++ ("<p>Rendering the text: \"" ++ cfg.text ++ "\"</p>")
  ++ "<table id=\"fontTable\">"
  ++ "<thead><tr><th class=\"font-name-col\" onclick=\"sortTable(0)\">Font Name</th><th class=\"filename-col\" onclick=\"sortTable(1)\">Filename</th><th onclick=\"sortTable(2)\">Style</th><th onclick=\"sortTable(3)\">Quality</th><th class=\"render-col\">Render</th><th></th></tr></thead>"
  ++ "<tbody>"
  ++ String.intercalate "\n" st.tableRows
  ++ "</tbody>"
  ++ "</table>"
  ++ htmlScript
  ++ "</body></html>"

/-- The complete HTML document `main` writes (font-indexer.py lines
241-305): a total function of the configuration and the final loop
state. -/
def htmlDocument (cfg : Config) (st : IndexState) : String :=
  htmlBeforeCounts ++ totalLine st ++ issuesLine st ++ htmlAfterCounts cfg st

/-- The full run of the index builder on the post-cap iteration list:
fold the loop from the initial state, then write the document. -/
def fullRunHtml (cfg : Config) (fonts : List FontFile) : String :=
  htmlDocument cfg (processFonts cfg initState fonts)

/-! ### Helper lemmas -/

lemma processFont_skip (cfg : Config) (st : IndexState) (f : FontFile)
    (h : has_required_chars f = false) : processFont cfg st f = st := by
  simp [processFont, h]

lemma has_required_chars_ttf_none (f : FontFile) (hf : f.ttf = none) :
    has_required_chars f = false := by
  simp [has_required_chars, hf]

/-! ### Claim C1 -/

/-- Claim C1: a font for which the character coverage check fails — the
best character map is absent, some of the 62 required ASCII
alphanumeric characters is not a key of that map, or opening the font
raises — contributes no report row and increments neither counter: the
loop iteration leaves the state unchanged. -/
theorem coverage_fail_no_row (cfg : Config) (st : IndexState) (f : FontFile)
    (h : f.ttf = none ∨ ∃ t, f.ttf = some t ∧
      (t.cmap = none ∨ ∃ cm, t.cmap = some cm ∧
        ∃ c ∈ requiredChars, List.lookup c.toNat cm = none)) :
    processFont cfg st f = st := by
  apply processFont_skip
  rcases h with hf | ⟨t, ht, hc⟩
  · exact has_required_chars_ttf_none f hf
  · rcases hc with hc | ⟨cm, hcm, c, hmem, hlook⟩
    · simp [has_required_chars, ht, hc]
    · have hall : (requiredChars.all fun c => (List.lookup c.toNat cm).isSome) = false := by
        rw [List.all_eq_false]
        exact ⟨c, hmem, by simp [hlook]⟩
      simp [has_required_chars, ht, hcm, hall]

/-- Font missing the required character `B`: cmap has only `A`. -/
def fC1 : FontFile :=
  { path := "c1.ttf"
    ttf := some { cmap := some [(65, "gA")], hmtx := fun _ => (100, 0),
                  unitsPerEm := 1000, names := fun _ => none }
    pil := fun _ => none
    ttfErr := ""
    pilErr := "" }

/-- A fixed configuration used by the concrete witnesses. -/
def cfgPlain : Config :=
  { text := "The quick brown fox jumps over the lazy dog."
    outputDir := "renders"
    size := 24
    slowCheck := false
    relpath := fun p => p
    readmeHtml := none }

theorem coverage_fail_no_row_witness :
    processFont cfgPlain initState fC1 = initState :=
  coverage_fail_no_row cfgPlain initState fC1
    (Or.inr ⟨_, rfl, Or.inr ⟨_, rfl, ⟨'B', by decide, by decide⟩⟩⟩)

/-! ### Claim C9 -/

/-- Claim C9: a font file that cannot be opened does not abort the index
builder — its iteration leaves the state unchanged, the remaining fonts
are processed exactly as if the file were absent, and the HTML document
is still produced (and equals the document for the remaining fonts). -/
theorem unreadable_font_skipped (cfg : Config) (f : FontFile)
    (hf : f.ttf = none) (st : IndexState) (xs ys : List FontFile) :
    processFont cfg st f = st ∧
    processFonts cfg st (xs ++ f :: ys) = processFonts cfg st (xs ++ ys) ∧
    fullRunHtml cfg (xs ++ f :: ys) =
      htmlDocument cfg (processFonts cfg initState (xs ++ ys)) := by
  have hskip : ∀ st' : IndexState, processFont cfg st' f = st' := fun st' =>
    processFont_skip cfg st' f (has_required_chars_ttf_none f hf)
  refine ⟨hskip st, ?_, ?_⟩
  · simp [processFonts, List.foldl_append, hskip]
  · simp [fullRunHtml, processFonts, List.foldl_append, hskip]

/-- A file fontTools refuses to open. -/
def fC9 : FontFile :=
  { path := "corrupt.ttf"
    ttf := none
    pil := fun _ => none
    ttfErr := "Not a TrueType or OpenType font (bad sfntVersion)"
    pilErr := "cannot open resource" }

theorem unreadable_font_skipped_witness :
    processFont cfgPlain initState fC9 = initState ∧
    processFonts cfgPlain initState ([] ++ fC9 :: [fC1]) =
      processFonts cfgPlain initState ([] ++ [fC1]) ∧
    fullRunHtml cfgPlain ([] ++ fC9 :: [fC1]) =
      htmlDocument cfgPlain (processFonts cfgPlain initState ([] ++ [fC1])) :=
  unreadable_font_skipped cfgPlain fC9 rfl initState [] [fC1]

/-! ### Claim C10 -/

lemma tdCell_ne_tr (a c : String) : tdCell a c ≠ "<tr>" := by
  intro h
  have h3 : ("<td" : String).length = 3 := rfl
  have h1 : (">" : String).length = 1 := rfl
  have h5 : ("</td>" : String).length = 5 := rfl
  have h4 : ("<tr>" : String).length = 4 := rfl
  have hlen := congrArg String.length h
  simp only [tdCell, String.length_append, h3, h1, h5, h4] at hlen
  omega

lemma count_tr_rowStrings (cfg : Config) (f : FontFile) (info : FontInfo)
    (ok : Bool) (reason : String) :
    List.count "<tr>" (rowStrings cfg f info ok reason) = 1 := by
  have hne : ∀ a c : String, (("<tr>" : String) == tdCell a c) = false := fun a c =>
    beq_eq_false_iff_ne.mpr (Ne.symm (tdCell_ne_tr a c))
  have hne' : ∀ a c : String, (tdCell a c == ("<tr>" : String)) = false := fun a c =>
    beq_eq_false_iff_ne.mpr (tdCell_ne_tr a c)
  simp [rowStrings, List.count_cons, hne, hne']

/-- The loop invariant of `main`: the quality-issue counter never
exceeds the processed counter, and the number of `<tr>` row openers in
`table_rows` equals the processed counter. -/
def invariantOK (st : IndexState) : Prop :=
  st.issues ≤ st.total ∧ List.count "<tr>" st.tableRows = st.total

lemma invariant_step (cfg : Config) (st : IndexState) (f : FontFile)
    (h : invariantOK st) : invariantOK (processFont cfg st f) := by
  by_cases hreq : has_required_chars f = true
  · cases hinfo : get_font_info f with
    | none => simpa [processFont, hreq, hinfo] using h
    | some info =>
      by_cases hr : render_text_ok cfg f = true
      · simp only [processFont, hreq, if_true, hinfo, hr]
        constructor
        · have := h.1
          cases hq : (fontQuality cfg f).1 <;> simp <;> omega
        · simp [List.count_append, count_tr_rowStrings, h.2]
      · simp only [processFont, hreq, if_true, hinfo]
        rw [if_neg (by simpa using hr)]
        exact h
  · simpa [processFont, hreq] using h

lemma invariant_fold (cfg : Config) (l : List FontFile) (st : IndexState)
    (h : invariantOK st) : invariantOK (processFonts cfg st l) := by
  induction l generalizing st with
  | nil => exact h
  | cons f l ih =>
    rw [processFonts, List.foldl_cons]
    exact ih _ (invariant_step cfg st f h)

/-- Claim C10: after processing any list of fonts from the initial
state, `fonts_with_issues ≤ total_processed_fonts` and the number of
emitted `<tr>` table rows equals `total_processed_fonts`; an iteration
whose thumbnail rendering did not succeed changes neither counter (nor
anything else); and the HTML document embeds exactly the two counter
paragraphs built from the final counter values. -/
theorem index_loop_invariant (cfg : Config) (fonts : List FontFile)
    (st : IndexState) (f : FontFile) (hr : render_text_ok cfg f = false) :
    (processFonts cfg initState fonts).issues ≤ (processFonts cfg initState fonts).total ∧
    List.count "<tr>" (processFonts cfg initState fonts).tableRows =
      (processFonts cfg initState fonts).total ∧
    processFont cfg st f = st ∧
    htmlDocument cfg (processFonts cfg initState fonts) =
      htmlBeforeCounts ++ totalLine (processFonts cfg initState fonts) ++
        issuesLine (processFonts cfg initState fonts) ++
        htmlAfterCounts cfg (processFonts cfg initState fonts) := by
  have hinv := invariant_fold cfg fonts initState ⟨Nat.le_refl 0, rfl⟩
  refine ⟨hinv.1, hinv.2, ?_, rfl⟩
  by_cases hreq : has_required_chars f = true
  · cases hinfo : get_font_info f with
    | none => simp [processFont, hreq, hinfo]
    | some info =>
      simp only [processFont, hreq, if_true, hinfo]
      rw [if_neg (by simp [hr])]
  · simp [processFont, hreq]

/-- A font whose Pillow load fails at every size: rendering fails. -/
def fNoPil : FontFile :=
  { path := "nopil.ttf"
    ttf := none
    pil := fun _ => none
    ttfErr := ""
    pilErr := "invalid pixel size" }

theorem index_loop_invariant_witness :
    (processFonts cfgPlain initState [fNoPil]).issues ≤
      (processFonts cfgPlain initState [fNoPil]).total ∧
    List.count "<tr>" (processFonts cfgPlain initState [fNoPil]).tableRows =
      (processFonts cfgPlain initState [fNoPil]).total ∧
    processFont cfgPlain initState fNoPil = initState ∧
    htmlDocument cfgPlain (processFonts cfgPlain initState [fNoPil]) =
      htmlBeforeCounts ++ totalLine (processFonts cfgPlain initState [fNoPil]) ++
        issuesLine (processFonts cfgPlain initState [fNoPil]) ++
        htmlAfterCounts cfgPlain (processFonts cfgPlain initState [fNoPil]) :=
  index_loop_invariant cfgPlain [fNoPil] initState fNoPil rfl

/-! ### Claims C2 and C3 -/

/-- A required character hits neither early return of the metric loop:
it is absent from the cmap, or its advance width is nonzero and at most
`units_per_em * 10`. -/
def goodWidth (cm : List (Nat × String)) (hm : String → Nat × Int)
    (upem : Nat) (c : Char) : Bool :=
  match List.lookup c.toNat cm with
  | none => true
  | some g => (hm g).1 != 0 && !(decide ((hm g).1 > upem * 10))

lemma metricsLoop_append (cm : List (Nat × String)) (hm : String → Nat × Int)
    (upem : Nat) (l1 rest : List Char) (acc : List Nat)
    (h : ∀ c ∈ l1, goodWidth cm hm upem c = true) :
    metricsLoop cm hm upem (l1 ++ rest) acc =
      metricsLoop cm hm upem rest (acc ++ presentWidths cm hm l1) := by
  induction l1 generalizing acc with
  | nil => simp [presentWidths]
  | cons c l1 ih =>
    rw [List.cons_append]
    simp only [metricsLoop]
    cases hc : List.lookup c.toNat cm with
    | none =>
      rw [ih acc fun c' hm' => h c' (List.mem_cons_of_mem c hm')]
      simp [presentWidths, hc]
    | some g =>
      have hw := h c (List.mem_cons_self c l1)
      simp only [goodWidth, hc, Bool.and_eq_true, bne_iff_ne, Bool.not_eq_true',
        decide_eq_false_iff_not] at hw
      simp only
      rw [if_neg hw.1, if_neg hw.2,
        ih (acc ++ [(hm g).1]) fun c' hm' => h c' (List.mem_cons_of_mem c hm')]
      simp [presentWidths, hc]

/-- Claim C2, amended: a zero-width required character is cited only
when it is the first offender.  Precisely: if the font opens with a
nonempty cmap, every required character before `c` (in the fixed
A-Z a-z 0-9 order) that is present in the cmap has a nonzero advance
width not exceeding `units_per_em * 10`, and `c` is present with
advance width `0`, then `check_font_metrics` fails with exactly
`Character '<c>' has zero width`. -/
theorem zero_width_first_offender_reason (f : FontFile) (t : TTData)
    (cm : List (Nat × String)) (l1 l2 : List Char) (c : Char)
    (hf : f.ttf = some t) (hc : t.cmap = some cm) (hne : cm.isEmpty = false)
    (hsplit : requiredChars = l1 ++ c :: l2)
    (hgood : ∀ c' ∈ l1, goodWidth cm t.hmtx t.unitsPerEm c' = true)
    (hzero : ((List.lookup c.toNat cm).map fun g => (t.hmtx g).1) = some 0) :
    check_font_metrics f = (false, zeroWidthMsg c) := by
  obtain ⟨g, hg, hw0⟩ : ∃ g, List.lookup c.toNat cm = some g ∧ (t.hmtx g).1 = 0 := by
    cases hl : List.lookup c.toNat cm with
    | none => rw [hl] at hzero; simp at hzero
    | some g =>
      rw [hl] at hzero
      exact ⟨g, rfl, by simpa using hzero⟩
  simp only [check_font_metrics, hf, hc]
  rw [if_neg (by simp [hne])]
  rw [hsplit, metricsLoop_append cm t.hmtx t.unitsPerEm l1 (c :: l2) [] hgood]
  simp only [metricsLoop, hg]
  rw [if_pos hw0]

/-- Font whose first offending required character (`A`, width 1001 with
`units_per_em = 100`) is excessively wide, while `B` has zero width. -/
def tC2x : TTData :=
  { cmap := some [(65, "gA"), (66, "gB")]
    hmtx := fun g => if g = "gB" then (0, 0) else (1001, 0)
    unitsPerEm := 100
    names := fun _ => none }

def fC2x : FontFile :=
  { path := "c2x.ttf", ttf := some tC2x, pil := fun _ => none
    ttfErr := "", pilErr := "" }

/-- Claim C2 is false as stated: in `fC2x` the required character `B`
is present in the cmap with advance width `0` — and is the only such
character — yet `check_font_metrics` fails citing `A` for excessive
width, not `B` for zero width, because the loop returns at the first
offending character in the fixed order. -/
theorem zero_width_reason_counterexample :
    ('B' ∈ requiredChars ∧
      ((List.lookup 'B'.toNat (tC2x.cmap.getD [])).map
        fun g => (tC2x.hmtx g).1) = some 0) ∧
    (check_font_metrics fC2x).1 = false ∧
    (check_font_metrics fC2x).2 = excessiveMsg 'A' ∧
    (check_font_metrics fC2x).2 ≠ zeroWidthMsg 'B' ∧
    (∀ c ∈ requiredChars,
      ((List.lookup c.toNat (tC2x.cmap.getD [])).map
        fun g => (tC2x.hmtx g).1) = some 0 → c = 'B') := by
  decide

/-- Font whose very first required character `A` has zero width. -/
def tC2w : TTData :=
  { cmap := some [(65, "gA")]
    hmtx := fun _ => (0, 0)
    unitsPerEm := 1000
    names := fun _ => none }

def fC2w : FontFile :=
  { path := "c2w.ttf", ttf := some tC2w, pil := fun _ => none
    ttfErr := "", pilErr := "" }

theorem zero_width_first_offender_witness :
    check_font_metrics fC2w = (false, zeroWidthMsg 'A') :=
  zero_width_first_offender_reason fC2w tC2w [(65, "gA")] [] requiredChars.tail
    'A' rfl rfl rfl (by decide)
    (fun c' hc' => absurd hc' (List.not_mem_nil c')) (by decide)

/-- Claim C3, amended: `check_font_metrics` reports
`No space character` for a font whose cmap lacks code point 32 —
provided the font opens, the cmap is nonempty, no required alphanumeric
character triggers the earlier zero-width / excessive-width returns,
and at least one required character is present in the cmap. -/
theorem space_missing_reason (f : FontFile) (t : TTData)
    (cm : List (Nat × String))
    (hf : f.ttf = some t) (hc : t.cmap = some cm) (hne : cm.isEmpty = false)
    (hgood : ∀ c ∈ requiredChars, goodWidth cm t.hmtx t.unitsPerEm c = true)
    (hpresent : presentWidths cm t.hmtx requiredChars ≠ [])
    (hnospace : List.lookup 32 cm = none) :
    check_font_metrics f = (false, "No space character") := by
  simp only [check_font_metrics, hf, hc]
  rw [if_neg (by simp [hne])]
  have hloop := metricsLoop_append cm t.hmtx t.unitsPerEm requiredChars [] [] hgood
  rw [List.append_nil] at hloop
  rw [hloop]
  simp only [metricsLoop, List.nil_append]
  rw [if_neg (by simpa [List.isEmpty_iff] using hpresent), hnospace]

/-- Font with only a zero-width `A` and no space character: the checker
cites the zero width, not the missing space. -/
def tC3x : TTData :=
  { cmap := some [(65, "g0")]
    hmtx := fun _ => (0, 0)
    unitsPerEm := 1000
    names := fun _ => none }

def fC3x : FontFile :=
  { path := "c3x.ttf", ttf := some tC3x, pil := fun _ => none
    ttfErr := "", pilErr := "" }

/-- Claim C3 is false as stated: the cmap of `fC3x` lacks the space
character (code point 32), yet `check_font_metrics` does not return
`No space character` — the zero-width check on `A` returns first. -/
theorem space_missing_reason_counterexample :
    List.lookup 32 (tC3x.cmap.getD []) = none ∧
    check_font_metrics fC3x = (false, zeroWidthMsg 'A') ∧
    check_font_metrics fC3x ≠ (false, "No space character") := by
  decide

/-- Font covering all 62 required characters at width 100 with no space
character. -/
def cmC3w : List (Nat × String) := requiredChars.map fun c => (c.toNat, "g")

def tC3w : TTData :=
  { cmap := some cmC3w
    hmtx := fun _ => (100, 0)
    unitsPerEm := 1000
    names := fun _ => none }

def fC3w : FontFile :=
  { path := "c3w.ttf", ttf := some tC3w, pil := fun _ => none
    ttfErr := "", pilErr := "" }

theorem space_missing_reason_witness :
    check_font_metrics fC3w = (false, "No space character") :=
  space_missing_reason fC3w tC3w cmC3w rfl rfl (by decide) (by decide)
    (by decide) (by decide)

/-! ### Claim C4 -/

/-- Claim C4: the kerning checker influences the quality result only
when the slow-check flag is set and the metric checker passed — in the
other cases `fontQuality` is exactly the metric checker's result — and
in that case it reports the defect (replacing the quality reason with
`Potential kerning issue`) exactly when the measured right-edge width
of `"A B C D E"` minus that of `"ABCDE"` strictly exceeds four times
the measured width of `" "`. -/
theorem kerning_gate_exact (cfg : Config) (f : FontFile) (pf : PILFont) :
    (cfg.slowCheck = false → fontQuality cfg f = check_font_metrics f) ∧
    ((check_font_metrics f).1 = false → fontQuality cfg f = check_font_metrics f) ∧
    (cfg.slowCheck = true → (check_font_metrics f).1 = true →
      f.pil cfg.size = some pf →
      fontQuality cfg f =
        if (pf.bbox "A B C D E").x1 - (pf.bbox "ABCDE").x1 > (pf.bbox " ").x1 * 4
        then (false, "Potential kerning issue")
        else (true, (check_font_metrics f).2)) := by
  refine ⟨fun h => by simp [fontQuality, h], fun h => by simp [fontQuality, h],
    fun hs hm hp => ?_⟩
  by_cases hcond :
      (pf.bbox "A B C D E").x1 - (pf.bbox "ABCDE").x1 > (pf.bbox " ").x1 * 4
  · simp [fontQuality, hs, hm, slow_check_font, hp, hcond]
  · simp [fontQuality, hs, hm, slow_check_font, hp, hcond]

/-- Configuration with the slow-check flag set. -/
def cfgSlow : Config :=
  { text := "The quick brown fox jumps over the lazy dog."
    outputDir := "renders"
    size := 24
    slowCheck := true
    relpath := fun p => p
    readmeHtml := none }

/-- Cmap covering all required characters plus a space glyph. -/
def cmFull : List (Nat × String) :=
  (requiredChars.map fun c => (c.toNat, "g")) ++ [(32, "s")]

/-- A font that passes the metric checks (all alphanumerics at width
100, space at width 10, 1000 units per em) but whose rendered probe
strings reveal a spacing defect: 100 − 60 > 5 × 4. -/
def pfC4 : PILFont :=
  { ascent := 20
    descent := -5
    bbox := fun s =>
      if s = "A B C D E" then ⟨0, 0, 100, 20⟩
      else if s = "ABCDE" then ⟨0, 0, 60, 20⟩
      else ⟨0, 0, 5, 20⟩ }

def tC4 : TTData :=
  { cmap := some cmFull
    hmtx := fun g => if g = "s" then (10, 0) else (100, 0)
    unitsPerEm := 1000
    names := fun _ => none }

def fC4 : FontFile :=
  { path := "c4.ttf", ttf := some tC4, pil := fun _ => some pfC4
    ttfErr := "", pilErr := "" }

theorem kerning_gate_exact_witness :
    fontQuality cfgSlow fC4 = (false, "Potential kerning issue") := by
  have h := (kerning_gate_exact cfgSlow fC4 pfC4).2.2 rfl (by decide) rfl
  rw [h, if_pos (by decide)]

/-! ### Claim C5 -/

/-- A bare font file used only for ordering demonstrations. -/
def mkFont (p : String) : FontFile :=
  { path := p, ttf := none, pil := fun _ => none, ttfErr := "", pilErr := "" }

/-- Two discovered fonts whose discovery order is the reverse of their
alphabetical order. -/
def demoFonts : List FontFile := [mkFont "b.ttf", mkFont "a.ttf"]

lemma demo_b_not_le_a : ¬ ((mkFont "b.ttf").path ≤ (mkFont "a.ttf").path) := by
  rw [mkFont, mkFont, not_le, String.lt_iff_toList_lt]
  decide

/-- Claim C5: the `-n` cap is applied to the discovery-order list before
the alphabetical sort used for iteration.  Hence at most `k` fonts are
processed, the processed fonts are exactly (a permutation of) the first
`k` in discovery order — and, as `demoFonts` shows, not necessarily the
first `k` of the sorted list: with `-n 1` the processed font is
`b.ttf`, while the first element of the full sorted list is `a.ttf`. -/
theorem number_cap_before_sort (discovered : List FontFile) (k : Nat) :
    (iterationList (some k) discovered).length ≤ k ∧
    (iterationList (some k) discovered).Perm (discovered.take k) ∧
    (iterationList (some 1) demoFonts).map FontFile.path = ["b.ttf"] ∧
    ((iterationList none demoFonts).take 1).map FontFile.path = ["a.ttf"] := by
  refine ⟨?_, ?_, rfl, ?_⟩
  · rw [iterationList, sortFonts, List.length_insertionSort, capFonts,
      List.length_take]
    exact min_le_left _ _
  · simpa [iterationList, sortFonts, capFonts] using
      List.perm_insertionSort (fun a b : FontFile => a.path ≤ b.path)
        (discovered.take k)
  · have hsort : iterationList none demoFonts = [mkFont "a.ttf", mkFont "b.ttf"] := by
      simp only [iterationList, capFonts, sortFonts, demoFonts,
        List.insertionSort, List.orderedInsert]
      rw [if_neg demo_b_not_le_a]
    rw [hsort]
    rfl

/-! ### Claims C6 and C7 -/

/-- Claim C6: for both renderers, rendering the same text with the same
font and size twice yields images of identical width and height — the
canvas dimensions are a deterministic function of text, font and size. -/
theorem render_dims_deterministic (text : String) (f : FontFile) (size : Nat)
    (i1 i2 j1 j2 : RenderedImage) :
    (render_text_indexer text f size = some i1 →
      render_text_indexer text f size = some i2 →
      i1.width = i2.width ∧ i1.height = i2.height) ∧
    (render_text_renderer text f size = some j1 →
      render_text_renderer text f size = some j2 →
      j1.width = j2.width ∧ j1.height = j2.height) := by
  constructor
  · intro h1 h2
    rw [h1] at h2
    cases h2
    exact ⟨rfl, rfl⟩
  · intro h1 h2
    rw [h1] at h2
    cases h2
    exact ⟨rfl, rfl⟩

/-- A Pillow font with ascent 20, descent −5 and a constant text
bounding box ⟨0, 0, 50, 30⟩. -/
def pfC6 : PILFont := ⟨20, -5, fun _ => ⟨0, 0, 50, 30⟩⟩

def fC6 : FontFile :=
  { path := "c6.ttf", ttf := none, pil := fun _ => some pfC6
    ttfErr := "", pilErr := "" }

/-- The image the indexer's renderer produces for `fC6`. -/
def imgC6i : RenderedImage := ⟨70, 45, (255, 255, 255, 0), "black", "PNG"⟩

/-- The image the single-render tool's renderer produces for `fC6`. -/
def imgC6r : RenderedImage := ⟨70, 50, (255, 255, 255, 0), "black", "PNG"⟩

theorem render_dims_deterministic_witness :
    (imgC6i.width = imgC6i.width ∧ imgC6i.height = imgC6i.height) ∧
    (imgC6r.width = imgC6r.width ∧ imgC6r.height = imgC6r.height) :=
  ⟨(render_dims_deterministic "Hello" fC6 24 imgC6i imgC6i imgC6r imgC6r).1
      (by decide) (by decide),
   (render_dims_deterministic "Hello" fC6 24 imgC6i imgC6i imgC6r imgC6r).2
      (by decide) (by decide)⟩

/-- Same shape as `pfC6`, kept separate for the C7 theorems. -/
def pfC7 : PILFont := ⟨20, -5, fun _ => ⟨0, 0, 50, 30⟩⟩

def fC7 : FontFile :=
  { path := "c7.ttf", ttf := none, pil := fun _ => some pfC7
    ttfErr := "", pilErr := "" }

/-- Claim C7 is false as stated: for the index builder's `render_text`,
with ascent 20, descent −5 and text bounding box ⟨0, 0, 50, 30⟩, the
written image height is 45 = ascent + |descent| + 2 × 10, not the
tight-bounding-box height extent plus 2 × padding, which is
30 + 2 × 10 = 50. -/
theorem render_canvas_counterexample :
    (render_text_indexer "Hello" fC7 24).map RenderedImage.height = some 45 ∧
    (pfC7.bbox "Hello").y1 - (pfC7.bbox "Hello").y0 + 2 * 10 = 50 ∧
    ¬ (render_text_indexer "Hello" fC7 24).map RenderedImage.height =
        some ((pfC7.bbox "Hello").y1 - (pfC7.bbox "Hello").y0 + 2 * 10) := by
  decide

/-- Claim C7, amended: both renderers draw black text on a transparent
(255,255,255,0) background and write a PNG whose width is the tight
bounding box width plus 2 × 10 padding.  The height is the tight
bounding box height plus 2 × 10 in font-renderer.py, but
`ascent + |descent| + 2 × 10` in font-indexer.py. -/
theorem render_canvas_amended (text : String) (f : FontFile) (size : Nat)
    (pf : PILFont) (hp : f.pil size = some pf) :
    render_text_indexer text f size = some
      { width := (pf.bbox text).x1 - (pf.bbox text).x0 + 2 * 10
        height := pf.ascent + |pf.descent| + 2 * 10
        background := (255, 255, 255, 0), fill := "black", format := "PNG" } ∧
    render_text_renderer text f size = some
      { width := (pf.bbox text).x1 - (pf.bbox text).x0 + 20
        height := (pf.bbox text).y1 - (pf.bbox text).y0 + 20
        background := (255, 255, 255, 0), fill := "black", format := "PNG" } := by
  constructor
  · simp [render_text_indexer, hp]
  · simp [render_text_renderer, hp]

theorem render_canvas_amended_witness :
    render_text_indexer "Hi" fC7 24 =
      some ⟨70, 45, (255, 255, 255, 0), "black", "PNG"⟩ ∧
    render_text_renderer "Hi" fC7 24 =
      some ⟨70, 50, (255, 255, 255, 0), "black", "PNG"⟩ := by
  have h := render_canvas_amended "Hi" fC7 24 pfC7 rfl
  exact ⟨h.1, h.2⟩

/-! ### Claim C8 -/

/-- Claim C8: a font whose quality check failed is not excluded from the
report.  If the coverage check passed, the quality result is a failure
with some reason, and the thumbnail rendering succeeded, then the loop
iteration appends exactly one table row, increments both counters, and
the row's quality cell carries the failing icon `&#10060;` with the
reason string as its `title` tooltip. -/
theorem quality_fail_still_listed (cfg : Config) (st : IndexState)
    (f : FontFile) (t : TTData) (reason : String)
    (hf : f.ttf = some t)
    (hreq : has_required_chars f = true)
    (hq : fontQuality cfg f = (false, reason))
    (hr : render_text_ok cfg f = true) :
    processFont cfg st f =
      { tableRows := st.tableRows ++ rowStrings cfg f (infoOf t) false reason
        total := st.total + 1
        issues := st.issues + 1 } ∧
    titleAttr false reason = "title=\"" ++ reason ++ "\"" ∧
    qualityIcon false = "&#10060;" ∧
    (rowStrings cfg f (infoOf t) false reason)[4]? =
      some (tdCell (" " ++ titleAttr false reason) (qualityIcon false)) := by
  have hinfo : get_font_info f = some (infoOf t) := by simp [get_font_info, hf]
  refine ⟨?_, rfl, rfl, rfl⟩
  simp [processFont, hreq, hinfo, hq, hr]

/-- A Pillow font for the C8 witness. -/
def pfC8 : PILFont := ⟨20, -5, fun _ => ⟨0, 0, 50, 30⟩⟩

/-- A font covering all required characters but lacking a space glyph:
the metric checker fails with `No space character`, yet the font
renders fine. -/
def tC8 : TTData :=
  { cmap := some cmC3w
    hmtx := fun _ => (100, 0)
    unitsPerEm := 1000
    names := fun _ => some "Demo" }

def fC8 : FontFile :=
  { path := "dir/c8.ttf", ttf := some tC8, pil := fun _ => some pfC8
    ttfErr := "", pilErr := "" }

theorem quality_fail_still_listed_witness :
    processFont cfgPlain initState fC8 =
      { tableRows := rowStrings cfgPlain fC8 (infoOf tC8) false "No space character"
        total := 1
        issues := 1 } ∧
    (rowStrings cfgPlain fC8 (infoOf tC8) false "No space character")[4]? =
      some (tdCell (" " ++ titleAttr false "No space character")
        (qualityIcon false)) := by
  have h := quality_fail_still_listed cfgPlain initState fC8 tC8
    "No space character" rfl (by decide) (by decide) rfl
  exact ⟨h.1, h.2.2.2⟩
